import Mathlib

/-!
Verification of the physics/render synchronization core of a small 3D
cube-dropping game (TypeScript sources: `src/Cube.ts`, `src/playState.ts`,
`src/main.ts`).  Scalar quantities are modelled over `ℚ`; render-side
resources (meshes, geometries) are modelled by the data the verified code
actually inspects: a mesh by the presence of its scene-graph parent, a
buffer geometry by an identity tag plus its flat attribute arrays.
The `PhysicsWorld` class lives in `src/physics.ts`, which is not among the
provided sources; its behavior is modelled from the specification where
noted, and only to the depth the verified call sites need.
-/

namespace GameBoiler

/-- Vec3 models a three-component position vector with rational scalars. -/
structure Vec3 where
  x : ℚ
  y : ℚ
  z : ℚ
deriving Repr, DecidableEq

/-- Size3 models the `size` record `{ width, height, depth }` stored on a cube. -/
structure Size3 where
  width : ℚ
  height : ℚ
  depth : ℚ
deriving Repr, DecidableEq

/-- Body models the rigid-body handle owned by a game object: an identity tag
into the engine plus the world-space position the body was created at
(`createObstacleBody(size, position, world, mass)` in `Cube.ts`). -/
structure Body where
  handle : ℕ
  position : Vec3
deriving Repr, DecidableEq

/-- Cube models the `Cube` class of `src/Cube.ts`: a mesh (represented by its
scene-graph parent, `none` when `mesh.parent === null`), a physics body, a
mass and a size record.  The `exploding` flag is the field the pruning filter
in `PlayState.update` reads; it is declared on the `Cube` class used by
`src/playState.ts` (initially false: a freshly spawned cube is in the Normal
state per the specification lifecycle). -/
structure Cube where
  meshParent : Option ℕ
  body : Body
  mass : ℚ
  size : Size3
  exploding : Bool
deriving Repr, DecidableEq

/-- Cube.update embeds the method `update(delta: number): void {}` of
`src/Cube.ts` (line 61): its body is empty, so on an explicit-state reading it
returns the state unchanged. -/
def Cube.update (c : Cube) (_delta : ℚ) : Cube := c

/-- RandomDraws packages the `Math.random()` results consumed by
`Cube.createRandom` (size, material index, x, y, z), each drawn from [0, 1). -/
structure RandomDraws where
  rSize : ℚ
  rMat : ℚ
  rX : ℚ
  rY : ℚ
  rZ : ℚ
deriving Repr, DecidableEq

/-- Cube.createRandom embeds the static factory of `src/Cube.ts` (lines 64-88):
size is `Math.random() * 1.0 + 0.5`, position is
`((Math.random() - 0.5) * worldSize * 0.8, Math.random() * 10 + 5,
(Math.random() - 0.5) * worldSize * 0.8)`, and the constructor is called with
mass `1.0` and equal width/height/depth.  Material choice and the random
torque/impulse affect only render material and engine momenta, which this
model does not track; the fresh mesh has no parent until `scene.add`. -/
def Cube.createRandom (worldSize : ℚ) (d : RandomDraws) (bodyHandle : ℕ) : Cube :=
  let size : ℚ := d.rSize * 1.0 + 0.5
  let posX : ℚ := (d.rX - 0.5) * worldSize * 0.8
  let posY : ℚ := d.rY * 10 + 5
  let posZ : ℚ := (d.rZ - 0.5) * worldSize * 0.8
  { meshParent := none
    body := { handle := bodyHandle, position := { x := posX, y := posY, z := posZ } }
    mass := 1.0
    size := { width := size, height := size, depth := size }
    exploding := false }

/-- GameObject models the `GameObject` interface as the pruning filter sees it:
either a `Cube` instance or some other game object (the filter only performs
an `instanceof Cube` test, so non-cube objects are kept abstract beyond the
common mesh/body/mass/size fields). -/
inductive GameObject where
  | cube (c : Cube)
  | plain (meshParent : Option ℕ) (body : Body) (mass : ℚ) (size : Size3)
deriving Repr, DecidableEq

/-- GameObject.update embeds the per-object update loop
`if (obj.update) obj.update(deltaTime)` in `PlayState.update`: a cube runs
`Cube.update`; a plain object either has no `update` member or an empty one. -/
def GameObject.update (o : GameObject) (dt : ℚ) : GameObject :=
  match o with
  | .cube c => .cube (c.update dt)
  | .plain m b ms sz => .plain m b ms sz

/-- keepInPrune embeds the predicate of the cleanup filter in
`PlayState.update` (playState.ts lines 897-902):
`if (obj instanceof Cube) return !obj.exploding || (obj.exploding && obj.mesh.parent !== null); return true;`. -/
def keepInPrune (o : GameObject) : Bool :=
  match o with
  | .cube c => !c.exploding || (c.exploding && c.meshParent.isSome)
  | .plain _ _ _ _ => true

/-- pruneGameObjects embeds
`this.gameObjects = this.gameObjects.filter(...)` from `PlayState.update`. -/
def pruneGameObjects (objs : List GameObject) : List GameObject :=
  objs.filter keepInPrune

/-- BufferGeometry models a `THREE.BufferGeometry` holding the debug line
data: an identity tag (distinct tags mean distinct allocations, equality of
tags means the same underlying storage) plus the flat `position` and `color`
attribute arrays. -/
structure BufferGeometry where
  id : ℕ
  positions : List ℚ
  colors : List ℚ
deriving Repr, DecidableEq

/-- DebugBuffers models the snapshot returned by the engine method
`world.debugRender()`: a flat vertex array and a flat color array. -/
structure DebugBuffers where
  vertices : List ℚ
  colors : List ℚ
deriving Repr, DecidableEq

/-- typedArraySet models `dst.set(src)` on a typed array: the leading
`src.length` entries of `dst` are overwritten with `src` and the rest kept;
when `src` is longer than `dst` the call throws a RangeError, modelled as
`none`. -/
def typedArraySet (dst src : List ℚ) : Option (List ℚ) :=
  if src.length ≤ dst.length then some (src ++ dst.drop src.length) else none

/-- syncDebugGeometry embeds the debug-geometry branch of `PlayState.update`
(playState.ts lines 910-942) acting on the current geometry: when both
attribute array lengths equal the incoming buffer lengths the data is copied
in place with `array.set` and the same geometry is kept (disposal flag
false); otherwise a fresh geometry (tag `freshId`) is built from exactly the
new data, and the old geometry is disposed (flag true). -/
def syncDebugGeometry (g : BufferGeometry) (freshId : ℕ) (bufs : DebugBuffers) :
    Option (BufferGeometry × Bool) :=
  if g.positions.length = bufs.vertices.length ∧ g.colors.length = bufs.colors.length then
    match typedArraySet g.positions bufs.vertices, typedArraySet g.colors bufs.colors with
    | some p, some c => some ({ id := g.id, positions := p, colors := c }, false)
    | _, _ => none
  else
    some ({ id := freshId, positions := bufs.vertices, colors := bufs.colors }, true)

/-- PhysicsWorld is modelled from the spec: `src/physics.ts` is not among the
provided sources, so the class is embedded from the specification contract:
`objects` is the ordered collection of live game objects (`addBody` appends,
`getPhysicsObjectCount` returns `objects.length`), `registeredHandlers`
records which body handles have a collision handler registered, and
`steppedDts` logs the dt passed to each engine step so that stepping once
per `update` call with a clamped dt is observable.  `maxStepDt` is the sane
internal clamp bound the specification requires. -/
structure PhysicsWorld where
  objects : List GameObject
  registeredHandlers : List ℕ
  steppedDts : List ℚ
  maxStepDt : ℚ
deriving Repr, DecidableEq

/-- PhysicsWorld.addBody is modelled from the spec: registers an
already-constructed game object by appending it to `objects`. -/
def PhysicsWorld.addBody (w : PhysicsWorld) (o : GameObject) : PhysicsWorld :=
  { w with objects := w.objects ++ [o] }

/-- PhysicsWorld.getPhysicsObjectCount is modelled from the spec: returns
`objects.length`; pure read, no side effects. -/
def PhysicsWorld.getPhysicsObjectCount (w : PhysicsWorld) : ℕ :=
  w.objects.length

/-- PhysicsWorld.registerCollisionHandler is modelled from the spec: records
a collision handler for the given body handle. -/
def PhysicsWorld.registerCollisionHandler (w : PhysicsWorld) (bodyHandle : ℕ) : PhysicsWorld :=
  { w with registeredHandlers := w.registeredHandlers ++ [bodyHandle] }

/-- PhysicsWorld.update is modelled from the spec: advances the simulation by
stepping the engine exactly once per call, with the frame dt clamped to the
sane internal bound before stepping (a dt larger than `maxStepDt` is reduced
to `maxStepDt` rather than stepping with the raw elapsed time).  Collision
dispatch for the step is modelled separately by `dispatchCollision`. -/
def PhysicsWorld.update (w : PhysicsWorld) (dt : ℚ) : PhysicsWorld :=
  { w with steppedDts := w.steppedDts ++ [min dt w.maxStepDt] }

/-- CollisionEvent models an engine-reported contact event between the two
bodies with the given handles. -/
structure CollisionEvent where
  bodyA : ℕ
  bodyB : ℕ
deriving Repr, DecidableEq

/-- dispatchCollision is modelled from the spec: for an event with bodies A
and B, if A is registered its handler is invoked with B as the other party
(`none` standing for the environment sentinel when B is unregistered), and
symmetrically for B.  The result is the ordered list of handler invocations
(receiver handle, other party). -/
def dispatchCollision (registered : List ℕ) (ev : CollisionEvent) :
    List (ℕ × Option ℕ) :=
  (if ev.bodyA ∈ registered then
    [(ev.bodyA, if ev.bodyB ∈ registered then some ev.bodyB else none)]
  else []) ++
  (if ev.bodyB ∈ registered then
    [(ev.bodyB, if ev.bodyA ∈ registered then some ev.bodyA else none)]
  else [])

/-- sceneId is the identity tag of the play scene, the parent assigned to a
mesh by `this.scene.add(mesh)`. -/
def sceneId : ℕ := 0

/-- PlayState models the fields of the `PlayState` class that the verified
methods touch: the world-size configuration, the physics world, the live
game-object list and the optional physics debug renderer (identified with
its geometry, the only part the sync code touches). -/
structure PlayState where
  worldSize : ℚ
  world : PhysicsWorld
  gameObjects : List GameObject
  physicsDebugRenderer : Option BufferGeometry
deriving Repr, DecidableEq

/-- PlayState.dropCube embeds `dropCube` of playState.ts (lines 809-825): it
creates one random cube, registers a collision handler for it, pushes it onto
`gameObjects`, adds its mesh to the scene (so the mesh parent becomes the
scene) and registers the object with the physics world via a single
`addBody` call.  The random draws and the engine-assigned body handle are
passed explicitly. -/
def PlayState.dropCube (s : PlayState) (d : RandomDraws) (bodyHandle : ℕ) : PlayState :=
  let cube0 := Cube.createRandom s.worldSize d bodyHandle
  let cube := { cube0 with meshParent := some sceneId }
  { s with
    gameObjects := s.gameObjects ++ [GameObject.cube cube]
    world := ((s.world.registerCollisionHandler bodyHandle).addBody (GameObject.cube cube)) }

/-- PlayState.dropInitialCubes embeds `dropInitialCubes(count)`: it calls
`dropCube` once per entry of the supplied list of (draws, handle) pairs,
whose length is the count. -/
def PlayState.dropInitialCubes (s : PlayState) (spawns : List (RandomDraws × ℕ)) : PlayState :=
  spawns.foldl (fun st dh => st.dropCube dh.1 dh.2) s

/-- PlayState.update embeds `update(deltaTime)` of playState.ts (lines
884-945): it steps the physics world exactly once with the frame dt, runs
each game object update hook, filters `gameObjects` through the pruning
predicate, and, when the debug renderer is active, synchronizes its geometry
against the fresh `debugRender()` buffers (passed explicitly, along with the
identity tag a freshly allocated geometry would get).  The result is `none`
only if an in-place attribute write would overrun its array. -/
def PlayState.update (s : PlayState) (deltaTime : ℚ) (bufs : DebugBuffers)
    (freshId : ℕ) : Option PlayState :=
  let w := s.world.update deltaTime
  let objs := (s.gameObjects.map (fun o => o.update deltaTime)).filter keepInPrune
  match s.physicsDebugRenderer with
  | none => some { s with world := w, gameObjects := objs }
  | some g =>
    match syncDebugGeometry g freshId bufs with
    | some (g2, _) =>
      some { s with world := w, gameObjects := objs, physicsDebugRenderer := some g2 }
    | none => none

/-- keepInPrune_cube_false_iff characterizes when the pruning predicate drops
a cube: exactly when it is exploding and its mesh has no parent. -/
theorem keepInPrune_cube_false_iff (c : Cube) :
    keepInPrune (GameObject.cube c) = false ↔ c.exploding = true ∧ c.meshParent = none := by
  cases hm : c.meshParent <;> cases he : c.exploding <;>
    simp [keepInPrune, hm, he]

/-- mem_pruneGameObjects_of_keep shows that an object mapped to `true` by the
pruning predicate survives the filter. -/
theorem mem_pruneGameObjects_of_keep (objs : List GameObject) (o : GameObject)
    (hmem : o ∈ objs) (hkeep : keepInPrune o = true) : o ∈ pruneGameObjects objs :=
  List.mem_filter.2 ⟨hmem, hkeep⟩

/-- C1: a cube is pruned from the live game-object list only after its visual
has been detached — an exploding cube whose mesh still has a parent is
retained by the pruning filter, and a cube that the filter drops is
necessarily exploding with a detached mesh (parent `null`). -/
theorem cube_pruned_only_after_detach (objs : List GameObject) (c : Cube) :
    (c.exploding = true → c.meshParent.isSome = true →
      GameObject.cube c ∈ objs → GameObject.cube c ∈ pruneGameObjects objs) ∧
    (GameObject.cube c ∈ objs → GameObject.cube c ∉ pruneGameObjects objs →
      c.exploding = true ∧ c.meshParent = none) := by
  constructor
  · intro hex hpar hmem
    refine mem_pruneGameObjects_of_keep objs _ hmem ?_
    simp [keepInPrune, hex, hpar]
  · intro hmem hnot
    by_cases hk : keepInPrune (GameObject.cube c) = true
    · exact absurd (mem_pruneGameObjects_of_keep objs _ hmem hk) hnot
    · exact (keepInPrune_cube_false_iff c).1 (Bool.eq_false_iff.2 hk ▸ rfl)

/-- bodyW is a concrete body fixture used by the witness instances. -/
def bodyW : Body := { handle := 7, position := { x := 0, y := 0, z := 0 } }

/-- sizeW is a concrete size fixture used by the witness instances. -/
def sizeW : Size3 := { width := 1, height := 1, depth := 1 }

/-- cubeW is a concrete exploding cube whose mesh is still attached to the
scene, used by the C1 witness. -/
def cubeW : Cube :=
  { meshParent := some sceneId, body := bodyW, mass := 1, size := sizeW, exploding := true }

/-- Witness for C1: an exploding cube whose mesh is still attached survives a
concrete pruning pass. -/
theorem cube_pruned_only_after_detach_check :
    GameObject.cube cubeW ∈ pruneGameObjects [GameObject.cube cubeW] :=
  (cube_pruned_only_after_detach [GameObject.cube cubeW] cubeW).1
    (by decide) (by decide) (by decide)

/-- C8: the method `Cube.update` is a no-op — the mesh attachment, body, mass
and size of a cube are all unchanged by a call with any dt, and in fact the
whole state is unchanged, so no explosion progress or other time-based
behavior is advanced here. -/
theorem cube_update_noop (c : Cube) (dt : ℚ) :
    c.update dt = c ∧
    (c.update dt).meshParent = c.meshParent ∧
    (c.update dt).body = c.body ∧
    (c.update dt).mass = c.mass ∧
    (c.update dt).size = c.size :=
  ⟨rfl, rfl, rfl, rfl, rfl⟩

/-- C9: the pruning filter removes only cubes — any game object that is not a
`Cube` instance is mapped to `true` by the pruning predicate whatever its
state, and hence is retained by every pruning pass it enters. -/
theorem prune_retains_non_cubes (objs : List GameObject) (m : Option ℕ) (b : Body)
    (ms : ℚ) (sz : Size3) :
    keepInPrune (GameObject.plain m b ms sz) = true ∧
    (GameObject.plain m b ms sz ∈ objs →
      GameObject.plain m b ms sz ∈ pruneGameObjects objs) := by
  refine ⟨rfl, fun hmem => mem_pruneGameObjects_of_keep objs _ hmem rfl⟩

/-- Witness for C9: a concrete non-cube object survives a concrete pruning
pass. -/
theorem prune_retains_non_cubes_check :
    GameObject.plain none bodyW 1 sizeW ∈
      pruneGameObjects [GameObject.cube cubeW, GameObject.plain none bodyW 1 sizeW] :=
  (prune_retains_non_cubes [GameObject.cube cubeW, GameObject.plain none bodyW 1 sizeW]
    none bodyW 1 sizeW).2 (by decide)

/-- builtGeometry is the geometry value produced by pairing an identity tag
with the incoming debug buffer data. -/
def builtGeometry (idTag : ℕ) (bufs : DebugBuffers) : BufferGeometry :=
  { id := idTag, positions := bufs.vertices, colors := bufs.colors }

/-- steppedState is the play state after the non-debug part of
`PlayState.update`: the world stepped once, the game objects updated and
pruned, and the debug renderer set to the given value. -/
def steppedState (s : PlayState) (dt : ℚ) (dr : Option BufferGeometry) : PlayState :=
  { s with
      world := s.world.update dt
      gameObjects := (s.gameObjects.map (fun o => o.update dt)).filter keepInPrune
      physicsDebugRenderer := dr }

/-- typedArraySet_full shows a full-size in-place copy replaces the entire
destination content with the source. -/
theorem typedArraySet_full (dst src : List ℚ) (h : dst.length = src.length) :
    typedArraySet dst src = some src := by
  unfold typedArraySet
  rw [if_pos h.ge, ← h, List.drop_length, List.append_nil]

/-- syncDebugGeometry_match gives the in-place branch of the sync routine:
with matching lengths the same geometry tag is kept and the data copied. -/
theorem syncDebugGeometry_match (g : BufferGeometry) (freshId : ℕ) (bufs : DebugBuffers)
    (hp : g.positions.length = bufs.vertices.length)
    (hc : g.colors.length = bufs.colors.length) :
    syncDebugGeometry g freshId bufs = some (builtGeometry g.id bufs, false) := by
  unfold syncDebugGeometry
  rw [if_pos ⟨hp, hc⟩, typedArraySet_full _ _ hp, typedArraySet_full _ _ hc]
  rfl

/-- syncDebugGeometry_mismatch gives the reallocation branch of the sync
routine: with non-matching lengths a fresh geometry built from exactly the
new data replaces the old one, which is disposed. -/
theorem syncDebugGeometry_mismatch (g : BufferGeometry) (freshId : ℕ) (bufs : DebugBuffers)
    (hmis : ¬(g.positions.length = bufs.vertices.length ∧
      g.colors.length = bufs.colors.length)) :
    syncDebugGeometry g freshId bufs = some (builtGeometry freshId bufs, true) := by
  unfold syncDebugGeometry
  rw [if_neg hmis]
  rfl

/-- syncDebugGeometry_isSome shows the sync routine never fails: every
in-place write it performs fits its destination array. -/
theorem syncDebugGeometry_isSome (g : BufferGeometry) (freshId : ℕ) (bufs : DebugBuffers) :
    (syncDebugGeometry g freshId bufs).isSome = true := by
  by_cases h : g.positions.length = bufs.vertices.length ∧
      g.colors.length = bufs.colors.length
  · rw [syncDebugGeometry_match g freshId bufs h.1 h.2]; rfl
  · rw [syncDebugGeometry_mismatch g freshId bufs h]; rfl

/-- update_with_none_renderer computes `PlayState.update` when the debug
renderer is inactive. -/
theorem update_with_none_renderer (s : PlayState) (dt : ℚ) (bufs : DebugBuffers)
    (freshId : ℕ) (hg : s.physicsDebugRenderer = none) :
    s.update dt bufs freshId = some (steppedState s dt none) := by
  simp only [PlayState.update, hg, steppedState]

/-- update_with_some_renderer computes `PlayState.update` when the debug
renderer holds geometry `g` and the sync routine yields `g2`. -/
theorem update_with_some_renderer (s : PlayState) (dt : ℚ) (bufs : DebugBuffers)
    (freshId : ℕ) (g g2 : BufferGeometry) (flag : Bool)
    (hg : s.physicsDebugRenderer = some g)
    (hsync : syncDebugGeometry g freshId bufs = some (g2, flag)) :
    s.update dt bufs freshId = some (steppedState s dt (some g2)) := by
  simp only [PlayState.update, hg, hsync, steppedState]

/-- C2: when both existing attribute array lengths equal the incoming buffer
lengths, the sync inside `PlayState.update` copies the new data in place and
keeps the same geometry object (same identity tag, hence the same underlying
storage, and no disposal), and the updated play state still carries that
geometry. -/
theorem debug_sync_in_place_reuses_geometry (s : PlayState) (g : BufferGeometry)
    (bufs : DebugBuffers) (freshId : ℕ) (dt : ℚ)
    (hg : s.physicsDebugRenderer = some g)
    (hp : g.positions.length = bufs.vertices.length)
    (hc : g.colors.length = bufs.colors.length) :
    syncDebugGeometry g freshId bufs = some (builtGeometry g.id bufs, false) ∧
    s.update dt bufs freshId = some (steppedState s dt (some (builtGeometry g.id bufs))) := by
  have hsync := syncDebugGeometry_match g freshId bufs hp hc
  exact ⟨hsync, update_with_some_renderer s dt bufs freshId g _ false hg hsync⟩

/-- geomW is a concrete two-vertex debug geometry fixture. -/
def geomW : BufferGeometry :=
  { id := 3, positions := [0, 0, 0, 1, 1, 1], colors := [1, 0, 0, 1, 0, 1, 0, 1] }

/-- bufsSameW is a concrete debug buffer snapshot with the same lengths as
`geomW`. -/
def bufsSameW : DebugBuffers :=
  { vertices := [2, 2, 2, 3, 3, 3], colors := [0, 0, 1, 1, 1, 1, 0, 1] }

/-- bufsGrownW is a concrete debug buffer snapshot with different lengths
than `geomW` (three vertices instead of two). -/
def bufsGrownW : DebugBuffers :=
  { vertices := [2, 2, 2, 3, 3, 3, 4, 4, 4]
    colors := [0, 0, 1, 1, 1, 1, 0, 1, 1, 0, 0, 1] }

/-- stateW is a concrete play state whose debug renderer holds `geomW`. -/
def stateW : PlayState :=
  { worldSize := 20
    world := { objects := [], registeredHandlers := [], steppedDts := [], maxStepDt := 1/10 }
    gameObjects := []
    physicsDebugRenderer := some geomW }

/-- Witness for C2: syncing `geomW` against equal-size buffers keeps tag 3
and copies the data in place. -/
theorem debug_sync_in_place_reuses_geometry_check :
    syncDebugGeometry geomW 9 bufsSameW = some (builtGeometry geomW.id bufsSameW, false) ∧
    stateW.update 1 bufsSameW 9 =
      some (steppedState stateW 1 (some (builtGeometry geomW.id bufsSameW))) :=
  debug_sync_in_place_reuses_geometry stateW geomW bufsSameW 9 1
    (by decide) (by decide) (by decide)

/-- C3: when the existing attribute array lengths do not both match the
incoming buffer lengths, the sync inside `PlayState.update` builds a new
geometry containing exactly the new vertex and color data (no residual data),
disposes the old geometry, and installs the new geometry on the debug
renderer. -/
theorem debug_sync_resize_replaces_geometry (s : PlayState) (g : BufferGeometry)
    (bufs : DebugBuffers) (freshId : ℕ) (dt : ℚ)
    (hg : s.physicsDebugRenderer = some g)
    (hmis : ¬(g.positions.length = bufs.vertices.length ∧
      g.colors.length = bufs.colors.length)) :
    syncDebugGeometry g freshId bufs = some (builtGeometry freshId bufs, true) ∧
    (builtGeometry freshId bufs).positions = bufs.vertices ∧
    (builtGeometry freshId bufs).colors = bufs.colors ∧
    s.update dt bufs freshId = some (steppedState s dt (some (builtGeometry freshId bufs))) := by
  have hsync := syncDebugGeometry_mismatch g freshId bufs hmis
  exact ⟨hsync, rfl, rfl, update_with_some_renderer s dt bufs freshId g _ true hg hsync⟩

/-- Witness for C3: syncing `geomW` (two vertices) against three-vertex
buffers produces a fresh geometry with tag 9 holding exactly the new data. -/
theorem debug_sync_resize_replaces_geometry_check :
    syncDebugGeometry geomW 9 bufsGrownW = some (builtGeometry 9 bufsGrownW, true) ∧
    (builtGeometry 9 bufsGrownW).positions = bufsGrownW.vertices ∧
    (builtGeometry 9 bufsGrownW).colors = bufsGrownW.colors ∧
    stateW.update 1 bufsGrownW 9 =
      some (steppedState stateW 1 (some (builtGeometry 9 bufsGrownW))) :=
  debug_sync_resize_replaces_geometry stateW geomW bufsGrownW 9 1 (by decide) (by decide)

/-- C4: the debug-geometry sync never writes past the capacity of a reused
buffer — the in-place copy runs only under the guard that both lengths
match, so the sync routine never hits the out-of-range failure case, and the
whole update step always succeeds. -/
theorem debug_sync_never_overruns (g : BufferGeometry) (freshId : ℕ) (bufs : DebugBuffers)
    (s : PlayState) (dt : ℚ) :
    (syncDebugGeometry g freshId bufs).isSome = true ∧
    (s.update dt bufs freshId).isSome = true := by
  refine ⟨syncDebugGeometry_isSome g freshId bufs, ?_⟩
  cases hg : s.physicsDebugRenderer with
  | none => rw [update_with_none_renderer s dt bufs freshId hg]; rfl
  | some g0 =>
    cases hsync : syncDebugGeometry g0 freshId bufs with
    | none =>
      have hok := syncDebugGeometry_isSome g0 freshId bufs
      rw [hsync] at hok
      exact absurd hok (by decide)
    | some pr =>
      rw [update_with_some_renderer s dt bufs freshId g0 pr.1 pr.2 hg (hsync.trans rfl)]
      rfl

/-- dropCube_objects shows one `dropCube` call appends exactly one game
object to the physics world registry. -/
theorem dropCube_objects (s : PlayState) (d : RandomDraws) (h : ℕ) :
    (s.dropCube d h).world.objects = s.world.objects ++
      [GameObject.cube { Cube.createRandom s.worldSize d h with meshParent := some sceneId }] := by
  simp [PlayState.dropCube, PhysicsWorld.addBody, PhysicsWorld.registerCollisionHandler]

/-- dropCube_count shows one `dropCube` call increases the physics object
count by exactly one. -/
theorem dropCube_count (s : PlayState) (d : RandomDraws) (h : ℕ) :
    (s.dropCube d h).world.getPhysicsObjectCount = s.world.getPhysicsObjectCount + 1 := by
  unfold PhysicsWorld.getPhysicsObjectCount
  rw [dropCube_objects]
  simp

/-- dropInitialCubes_count shows spawning a batch adds its size to the
physics object count. -/
theorem dropInitialCubes_count (s : PlayState) (spawns : List (RandomDraws × ℕ)) :
    (s.dropInitialCubes spawns).world.getPhysicsObjectCount =
      s.world.getPhysicsObjectCount + spawns.length := by
  induction spawns generalizing s with
  | nil => simp [PlayState.dropInitialCubes]
  | cons p ps ih =>
    have hstep : s.dropInitialCubes (p :: ps) = (s.dropCube p.1 p.2).dropInitialCubes ps := rfl
    rw [hstep, ih, dropCube_count]
    simp
    omega

/-- C5: each successful spawn adds exactly one game object to the physics
world, so `getPhysicsObjectCount` increases by exactly 1 per `dropCube` call
(and, being a list length, is never negative); after ten spawns from the
constructor on an empty registry the count is 10. -/
theorem drop_cube_increments_count (s : PlayState) (d : RandomDraws) (h : ℕ)
    (spawns : List (RandomDraws × ℕ)) :
    (s.dropCube d h).world.objects = s.world.objects ++
      [GameObject.cube { Cube.createRandom s.worldSize d h with meshParent := some sceneId }] ∧
    (s.dropCube d h).world.getPhysicsObjectCount = s.world.getPhysicsObjectCount + 1 ∧
    (s.dropInitialCubes spawns).world.getPhysicsObjectCount =
      s.world.getPhysicsObjectCount + spawns.length ∧
    (spawns.length = 10 → s.world.objects = [] →
      (s.dropInitialCubes spawns).world.getPhysicsObjectCount = 10) := by
  refine ⟨dropCube_objects s d h, dropCube_count s d h, dropInitialCubes_count s spawns, ?_⟩
  intro hlen hempty
  rw [dropInitialCubes_count, hlen]
  unfold PhysicsWorld.getPhysicsObjectCount
  rw [hempty]
  rfl

/-- drawsW is a concrete random-draw fixture with every draw equal to 0. -/
def drawsW : RandomDraws := { rSize := 0, rMat := 0, rX := 0, rY := 0, rZ := 0 }

/-- stateEmptyW is a concrete play state with an empty physics registry. -/
def stateEmptyW : PlayState :=
  { worldSize := 20
    world := { objects := [], registeredHandlers := [], steppedDts := [], maxStepDt := 1/10 }
    gameObjects := []
    physicsDebugRenderer := none }

/-- spawnsW is a concrete batch of ten spawns. -/
def spawnsW : List (RandomDraws × ℕ) := List.replicate 10 (drawsW, 0)

/-- Witness for C5: spawning ten cubes into an empty world yields a physics
object count of exactly 10. -/
theorem drop_cube_increments_count_check :
    (stateEmptyW.dropInitialCubes spawnsW).world.getPhysicsObjectCount = 10 :=
  (drop_cube_increments_count stateEmptyW drawsW 0 spawnsW).2.2.2 (by decide) (by decide)

/-- C6: each `PlayState.update` call steps the physics world exactly once
(one entry appended to the step log) with the frame dt, and the dt used for
the step is the clamped value: never above the sane bound, and equal to the
bound rather than the raw elapsed time whenever the frame dt exceeds it. -/
theorem physics_update_once_clamped (s : PlayState) (dt : ℚ) (bufs : DebugBuffers)
    (freshId : ℕ) (s2 : PlayState) (hupd : s.update dt bufs freshId = some s2) :
    s2.world.steppedDts = s.world.steppedDts ++ [min dt s.world.maxStepDt] ∧
    min dt s.world.maxStepDt ≤ s.world.maxStepDt ∧
    (s.world.maxStepDt < dt → min dt s.world.maxStepDt = s.world.maxStepDt ∧
      min dt s.world.maxStepDt ≠ dt) := by
  have hs2 : s2.world = s.world.update dt := by
    cases hg : s.physicsDebugRenderer with
    | none =>
      rw [update_with_none_renderer s dt bufs freshId hg] at hupd
      cases hupd
      rfl
    | some g0 =>
      cases hsync : syncDebugGeometry g0 freshId bufs with
      | none =>
        have hok := syncDebugGeometry_isSome g0 freshId bufs
        rw [hsync] at hok
        exact absurd hok (by decide)
      | some pr =>
        rw [update_with_some_renderer s dt bufs freshId g0 pr.1 pr.2 hg (hsync.trans rfl)]
          at hupd
        cases hupd
        rfl
    
  refine ⟨by rw [hs2]; rfl, min_le_right dt s.world.maxStepDt, ?_⟩
  intro hbig
  constructor
  · exact min_eq_right hbig.le
  · rw [min_eq_right hbig.le]
    exact fun hcontra => absurd (hcontra ▸ hbig) (lt_irrefl dt)

/-- Witness for C6: updating a concrete state with frame dt 1 and clamp
bound 1/10 logs exactly one step at the clamped dt. -/
theorem physics_update_once_clamped_check :
    (steppedState stateEmptyW 1 none).world.steppedDts =
      stateEmptyW.world.steppedDts ++ [min 1 stateEmptyW.world.maxStepDt] ∧
    min 1 stateEmptyW.world.maxStepDt ≤ stateEmptyW.world.maxStepDt ∧
    (stateEmptyW.world.maxStepDt < 1 →
      min 1 stateEmptyW.world.maxStepDt = stateEmptyW.world.maxStepDt ∧
      min 1 stateEmptyW.world.maxStepDt ≠ 1) :=
  physics_update_once_clamped stateEmptyW 1 bufsSameW 0
    (steppedState stateEmptyW 1 none) rfl

/-- C7: collision dispatch invokes, for an event between bodies A and B,
exactly the handlers of the registered parties, each exactly once and with
the other party as argument: with both registered the invocation list is
precisely [(A, B), (B, A)]; with only one side registered only that handler
fires, with the environment sentinel as the other party. -/
theorem collision_dispatch_exact (registered : List ℕ) (ev : CollisionEvent) :
    (ev.bodyA ∈ registered → ev.bodyB ∈ registered →
      dispatchCollision registered ev =
        [(ev.bodyA, some ev.bodyB), (ev.bodyB, some ev.bodyA)]) ∧
    (ev.bodyA ∈ registered → ev.bodyB ∈ registered → ev.bodyA ≠ ev.bodyB →
      (dispatchCollision registered ev).count (ev.bodyA, some ev.bodyB) = 1 ∧
      (dispatchCollision registered ev).count (ev.bodyB, some ev.bodyA) = 1) ∧
    (ev.bodyA ∈ registered → ev.bodyB ∉ registered →
      dispatchCollision registered ev = [(ev.bodyA, none)]) ∧
    (ev.bodyA ∉ registered → ev.bodyB ∈ registered →
      dispatchCollision registered ev = [(ev.bodyB, none)]) := by
  have hboth : ev.bodyA ∈ registered → ev.bodyB ∈ registered →
      dispatchCollision registered ev =
        [(ev.bodyA, some ev.bodyB), (ev.bodyB, some ev.bodyA)] := by
    intro hA hB
    unfold dispatchCollision
    simp [hA, hB]
  refine ⟨hboth, ?_, ?_, ?_⟩
  · intro hA hB hne
    rw [hboth hA hB]
    constructor
    · simp [List.count_cons, hne, Ne.symm hne]
    · simp [List.count_cons, hne, Ne.symm hne]
  · intro hA hB
    unfold dispatchCollision
    simp [hA, hB]
  · intro hA hB
    unfold dispatchCollision
    simp [hA, hB]

/-- Witness for C7: a concrete event between two registered bodies fires
both handlers once each, and a concrete event against an unregistered body
fires only the registered side. -/
theorem collision_dispatch_exact_check :
    dispatchCollision [1, 2] { bodyA := 1, bodyB := 2 } = [(1, some 2), (2, some 1)] :=
  (collision_dispatch_exact [1, 2] { bodyA := 1, bodyB := 2 }).1 (by decide) (by decide)

/-- C10: every cube produced by `Cube.createRandom` has equal width, height
and depth with the common size in [1/2, 3/2), mass exactly 1, spawn height
in [5, 15), and horizontal coordinates bounded in magnitude by 2/5 of the
world size; in particular all dimensions and the mass are strictly
positive.  Randomness enters as explicit draws from [0, 1). -/
theorem create_random_bounds (worldSize : ℚ) (d : RandomDraws) (hnd : ℕ)
    (hw : 0 ≤ worldSize) (hs0 : 0 ≤ d.rSize) (hs1 : d.rSize < 1)
    (hx0 : 0 ≤ d.rX) (hx1 : d.rX < 1) (hy0 : 0 ≤ d.rY) (hy1 : d.rY < 1)
    (hz0 : 0 ≤ d.rZ) (hz1 : d.rZ < 1) :
    let c := Cube.createRandom worldSize d hnd
    (c.size.width = c.size.height ∧ c.size.height = c.size.depth) ∧
    (1/2 ≤ c.size.width ∧ c.size.width < 3/2) ∧
    c.mass = 1 ∧
    (5 ≤ c.body.position.y ∧ c.body.position.y < 15) ∧
    |c.body.position.x| ≤ 2/5 * worldSize ∧
    |c.body.position.z| ≤ 2/5 * worldSize ∧
    0 < c.size.width ∧ 0 < c.size.height ∧ 0 < c.size.depth ∧ 0 < c.mass := by
  intro c
  have e05 : (0.5 : ℚ) = 1/2 := by norm_num
  have e08 : (0.8 : ℚ) = 4/5 := by norm_num
  have hwidth : c.size.width = d.rSize * 1 + 1/2 := by
    show d.rSize * 1.0 + 0.5 = d.rSize * 1 + 1/2
    rw [e05]
    norm_num
  have hheight : c.size.height = d.rSize * 1 + 1/2 := hwidth
  have hdepth : c.size.depth = d.rSize * 1 + 1/2 := hwidth
  have hmass : c.mass = 1 := by
    show (1.0 : ℚ) = 1
    norm_num
  have hxv : c.body.position.x = (d.rX - 1/2) * worldSize * (4/5) := by
    show (d.rX - 0.5) * worldSize * 0.8 = (d.rX - 1/2) * worldSize * (4/5)
    rw [e05, e08]
  have hyv : c.body.position.y = d.rY * 10 + 5 := rfl
  have hzv : c.body.position.z = (d.rZ - 1/2) * worldSize * (4/5) := by
    show (d.rZ - 0.5) * worldSize * 0.8 = (d.rZ - 1/2) * worldSize * (4/5)
    rw [e05, e08]
  refine ⟨⟨rfl, rfl⟩, ⟨?_, ?_⟩, hmass, ⟨?_, ?_⟩, ?_, ?_, ?_, ?_, ?_, ?_⟩
  · rw [hwidth]; linarith
  · rw [hwidth]; linarith
  · rw [hyv]; linarith
  · rw [hyv]; linarith
  · rw [hxv, abs_le]
    constructor
    · nlinarith [mul_nonneg hw hx0]
    · nlinarith [mul_nonneg hw (by linarith : (0:ℚ) ≤ 1 - d.rX)]
  · rw [hzv, abs_le]
    constructor
    · nlinarith [mul_nonneg hw hz0]
    · nlinarith [mul_nonneg hw (by linarith : (0:ℚ) ≤ 1 - d.rZ)]
  · rw [hwidth]; linarith
  · rw [hheight]; linarith
  · rw [hdepth]; linarith
  · rw [hmass]; norm_num

/-- Witness for C10: the cube created from the all-zero draws at world size
20 has side length 1/2, mass 1, spawn height 5, and horizontal position at
the corner of the spawn region. -/
theorem create_random_bounds_check :
    let c := Cube.createRandom 20 drawsW 0
    (c.size.width = c.size.height ∧ c.size.height = c.size.depth) ∧
    (1/2 ≤ c.size.width ∧ c.size.width < 3/2) ∧
    c.mass = 1 ∧
    (5 ≤ c.body.position.y ∧ c.body.position.y < 15) ∧
    |c.body.position.x| ≤ 2/5 * 20 ∧
    |c.body.position.z| ≤ 2/5 * 20 ∧
    0 < c.size.width ∧ 0 < c.size.height ∧ 0 < c.size.depth ∧ 0 < c.mass :=
  create_random_bounds 20 drawsW 0 (by decide) (by decide) (by decide) (by decide)
    (by decide) (by decide) (by decide) (by decide) (by decide)

end GameBoiler
